import Mathlib

/-!
# Verification of the God Mode autonomous SEO engine

Shallow embedding of `src/lib/sota/GodModeEngine.ts` (the autonomous
optimization engine): queue item model, priority-queue sorting, the
circuit breaker, the exponential-backoff calculator, and the four phase
executors (Scan, Score, Generate, Publish), together with proofs of the
spec's testable properties.

Modelling conventions:
* JS numbers that the engine only ever uses as non-negative integers
  (health scores, quality scores, retry counts, millisecond timestamps and
  durations) are `Nat`; the backoff calculator, which multiplies by the
  fractional jitter factor `0.2 * (Math.random() - 0.5)`, is modelled over
  `ℚ` with an explicit `Int.floor` mirroring `Math.floor`.
* External collaborators are parameters: the page analyzer is
  `analyze : String → Option Nat` (`none` = the analyzer call threw), the
  content generator is `gen : Nat → Except String ContentResult` (pass
  number ↦ outcome; `Except.error` = the generator call threw), the
  publisher outcome is a `PublishOutcome`, and `Math.random` is a rational
  draw `rnd ∈ [0,1)` supplied as an argument.
* `crypto.randomUUID()` produces an opaque identifier that no engine logic
  ever reads; it is modelled as the constant `""`.  `new Date()` /
  `Date.now()` are modelled by an explicit `now : Nat` argument, and the
  generation phase's elapsed wall-clock time by `elapsed : Nat`.
* URL-string helpers whose bodies are WHATWG-URL parsing (`isExcluded`,
  `getSlug`) are parameters of the phase functions; every theorem below
  holds for an arbitrary such helper.
* The `onStateUpdate` / `onActivity` UI callbacks and `console.log` calls
  are pure observer notifications with no influence on engine control
  flow; they are not modelled.  History entries (`addToHistory`) are
  modelled explicitly since the spec constrains them.
-/

namespace GodMode

/- `ENTERPRISE_CONSTANTS` from `GodModeEngine.ts` (the fields the engine
logic reads). -/
namespace ENTERPRISE_CONSTANTS

def MIN_QUALITY_SCORE : Nat := 90

def MAX_QUALITY_IMPROVEMENT_PASSES : Nat := 3

def EXPONENTIAL_BACKOFF_BASE_MS : Nat := 5000

def EXPONENTIAL_BACKOFF_MAX_MS : Nat := 300000

def CIRCUIT_BREAKER_THRESHOLD : Nat := 5

def CIRCUIT_BREAKER_RESET_MS : Nat := 600000

end ENTERPRISE_CONSTANTS

/-- Queue item priority: `'critical' | 'high' | 'medium' | 'low'`. -/
inductive Priority where
  | critical
  | high
  | medium
  | low
deriving DecidableEq, Repr

/-- Queue item source: `'scan' | 'manual'`. -/
inductive Source where
  | scan
  | manual
deriving DecidableEq, Repr

/-- `GodModeQueueItem`: the unit of work. -/
structure QueueItem where
  id : String
  url : String
  priority : Priority
  healthScore : Nat
  addedAt : Nat
  source : Source
  retryCount : Nat
  lastError : Option String := none
deriving DecidableEq, Repr

/-- A caller-supplied priority URL (`options.priorityUrls` entry). -/
structure PriorityUrl where
  url : String
  priority : Priority
deriving DecidableEq, Repr

/-- The fields of `GodModeConfig` that the engine logic reads. -/
structure GodModeConfig where
  qualityThreshold : Nat
  retryAttempts : Nat
  minHealthScore : Nat
  maxPerDay : Nat
  processingIntervalMinutes : Nat
  scanIntervalHours : Nat
  activeHoursStart : Nat
  activeHoursEnd : Nat
  enableWeekends : Bool
  autoPublish : Bool
  defaultStatus : String
deriving Repr

/-- `const priorityOrder = { critical: 0, high: 1, medium: 2, low: 3 }`
from `sortQueue`. -/
def priorityOrder : Priority → Nat
  | .critical => 0
  | .high => 1
  | .medium => 2
  | .low => 3

/-- The total preorder induced by `sortQueue`'s comparator: `a` before `b`
when the comparator returns `≤ 0`, i.e. strictly smaller priority rank, or
equal rank and `healthScore` no larger (lower score is more urgent). -/
def queueLE (a b : QueueItem) : Prop :=
  priorityOrder a.priority < priorityOrder b.priority ∨
    (priorityOrder a.priority = priorityOrder b.priority ∧ a.healthScore ≤ b.healthScore)

instance : DecidableRel queueLE := fun a b => by
  unfold queueLE; exact inferInstance

instance : IsTotal QueueItem queueLE :=
  ⟨fun a b => by unfold queueLE; omega⟩

instance : IsTrans QueueItem queueLE :=
  ⟨fun a b c hab hbc => by unfold queueLE at *; omega⟩

/-- `sortQueue`: sort by priority rank, ties broken by ascending health
score.  `Array.prototype.sort` with the source's comparator produces a
list sorted with respect to `queueLE`; we model it with insertion sort,
which is likewise stable and sorted for this total preorder. -/
def sortQueue (q : List QueueItem) : List QueueItem :=
  q.insertionSort queueLE

/-- A queue is ordered when, for any earlier position `i` and later
position `j`, the rank at `i` is no larger, and equal ranks have ascending
health scores. -/
def QueueOrdered (l : List QueueItem) : Prop :=
  ∀ (i j : Fin l.length), (i : Nat) < (j : Nat) →
    priorityOrder (l.get i).priority ≤ priorityOrder (l.get j).priority ∧
      (priorityOrder (l.get i).priority = priorityOrder (l.get j).priority →
        (l.get i).healthScore ≤ (l.get j).healthScore)

theorem sortQueue_sorted (q : List QueueItem) : List.Sorted queueLE (sortQueue q) :=
  List.sorted_insertionSort queueLE q

theorem sortQueue_perm (q : List QueueItem) : List.Perm (sortQueue q) q :=
  List.perm_insertionSort queueLE q

theorem queueOrdered_of_sorted {l : List QueueItem} (h : List.Sorted queueLE l) :
    QueueOrdered l := by
  intro i j hij
  have hr := h.rel_get_of_lt (a := i) (b := j) (by exact hij)
  unfold queueLE at hr
  omega

theorem sortQueue_ordered (q : List QueueItem) : QueueOrdered (sortQueue q) :=
  queueOrdered_of_sorted (sortQueue_sorted q)

/-- The URLs of a queue, in order. -/
def urlsOf (q : List QueueItem) : List String :=
  q.map (·.url)

/-- One iteration of `initializePriorityQueue`'s `for` loop body: skip the
URL when it is excluded or already queued, otherwise push a fresh item
(`healthScore: 0`, `source: 'manual'`, `retryCount: 0`). -/
def initStep (isExcluded : String → Bool) (now : Nat) (q : List QueueItem)
    (p : PriorityUrl) : List QueueItem :=
  if isExcluded p.url then q
  else if q.any (·.url == p.url) then q
  else
    q ++ [{ id := "", url := p.url, priority := p.priority, healthScore := 0,
            addedAt := now, source := .manual, retryCount := 0 }]

/-- `initializePriorityQueue` (Priority Only Mode): rebuild the queue from
the caller-supplied priority URLs, deduplicated on URL, then
`sortQueue`. -/
def initializePriorityQueue (priorityUrls : List PriorityUrl)
    (isExcluded : String → Bool) (now : Nat) : List QueueItem :=
  sortQueue (priorityUrls.foldl (initStep isExcluded now) [])

/-- `calculatePriority`: an explicit priority-list entry wins; otherwise
the score bands `<30 → critical, <50 → high, <70 → medium, else low`. -/
def calculatePriority (priorityUrls : List PriorityUrl) (score : Nat)
    (url : String) : Priority :=
  match priorityUrls.find? (·.url == url) with
  | some p => p.priority
  | none =>
    if score < 30 then .critical
    else if score < 50 then .high
    else if score < 70 then .medium
    else .low

/-- One iteration of `runScoringPhase`'s loop body for a single URL:
`analyze = none` models the analyzer throwing (logged and skipped);
otherwise the URL is queued only when its score is below
`config.minHealthScore` and no item with that URL is already queued. -/
def scoreStep (cfg : GodModeConfig) (priorityUrls : List PriorityUrl)
    (analyze : String → Option Nat) (now : Nat) (q : List QueueItem)
    (url : String) : List QueueItem :=
  match analyze url with
  | none => q
  | some score =>
    if score < cfg.minHealthScore && !(q.any (·.url == url)) then
      q ++ [{ id := "", url := url,
              priority := calculatePriority priorityUrls score url,
              healthScore := score, addedAt := now,
              source := if priorityUrls.any (·.url == url) then .manual else .scan,
              retryCount := 0 }]
    else q

/-- Result of the Score phase: the new queue and the list of URLs the
analyzer was invoked on. -/
structure ScoreResult where
  queue : List QueueItem
  analyzed : List String
deriving Repr

/-- `runScoringPhase`: pick the candidate set (priority URLs in
priority-only mode, else the sitemap), drop excluded URLs, return early if
nothing remains, otherwise analyze only the first 20
(`filteredUrls.slice(0, 20)`), queue qualifying pages, and `sortQueue`.
The loop's early `break` on abort/pause is not modelled (it can only
shorten the analyzed prefix further); the run modelled here is the
uninterrupted one. -/
def runScoringPhase (cfg : GodModeConfig) (priorityOnlyMode : Bool)
    (sitemapUrls : List String) (priorityUrls : List PriorityUrl)
    (isExcluded : String → Bool) (analyze : String → Option Nat) (now : Nat)
    (queue : List QueueItem) : ScoreResult :=
  let urlsToScore := if priorityOnlyMode then priorityUrls.map (·.url) else sitemapUrls
  let filteredUrls := urlsToScore.filter (fun u => !isExcluded u)
  if filteredUrls.isEmpty then ⟨queue, []⟩
  else
    let urlsToAnalyze := filteredUrls.take 20
    ⟨sortQueue (urlsToAnalyze.foldl (scoreStep cfg priorityUrls analyze now) queue),
      urlsToAnalyze⟩

/-- `content.qualityScore?.overall` (optional nested field). -/
structure QualityScore where
  overall : Nat
deriving DecidableEq, Repr

/-- `content.metrics?.wordCount` (optional nested field). -/
structure ContentMetrics where
  wordCount : Nat
deriving DecidableEq, Repr

/-- The orchestrator's `generateContent` result: the fields
`runGenerationPhase` / `runPublishPhase` read. -/
structure ContentResult where
  title : String
  content : String
  seoTitle : String
  metaDescription : String
  qualityScore : Option QualityScore
  metrics : Option ContentMetrics
deriving DecidableEq, Repr

/-- `content.qualityScore?.overall || 0`. -/
def qualityOf (c : ContentResult) : Nat :=
  (c.qualityScore.map (·.overall)).getD 0

/-- `content?.metrics?.wordCount || 0`. -/
def wordCountOf (c : ContentResult) : Nat :=
  (c.metrics.map (·.wordCount)).getD 0

/-- The `generatedContent` snapshot prepared by the Generate phase
("always store for review access"). -/
structure StoredContent where
  title : String
  content : String
  seoTitle : String
  metaDescription : String
  slug : String
deriving DecidableEq, Repr

/-- History entry action: `'generated' | 'published' | 'skipped' | 'error'`. -/
inductive HistoryAction where
  | generated
  | published
  | skipped
  | error
deriving DecidableEq, Repr

/-- `GodModeHistoryItem` minus the hook-assigned `id`/`timestamp`: one
entry per terminal outcome of a queue item. -/
structure HistoryEntry where
  url : String
  action : HistoryAction
  qualityScore : Option Nat := none
  wordCount : Option Nat := none
  processingTimeMs : Option Nat := none
  wordPressUrl : Option String := none
  error : Option String := none
  generatedContent : Option StoredContent := none
deriving DecidableEq, Repr

/-- The engine's private mutable fields that the Generate phase reads and
writes. -/
structure EngineState where
  queue : List QueueItem
  consecutiveFailures : Nat
  circuitBrokenUntil : Option Nat
  qualityScoreHistory : List Nat
  processingTimeHistory : List Nat
  processedToday : Nat
deriving Repr

/-- `isCircuitBroken`, returning the flag together with the possibly
reset state: an expired cooldown clears `circuitBrokenUntil` and resets
`consecutiveFailures` to 0. -/
def isCircuitBroken (st : EngineState) (now : Nat) : Bool × EngineState :=
  match st.circuitBrokenUntil with
  | none => (false, st)
  | some t =>
    if t ≤ now then
      (false, { st with circuitBrokenUntil := none, consecutiveFailures := 0 })
    else (true, st)

/-- `calculateBackoffDelay`:
`Math.floor(min(base * 2^retryCount, max) * (1 + 0.2 * (rnd - 0.5)))`
with `rnd` the `Math.random()` draw. -/
def calculateBackoffDelay (retryCount : Nat) (rnd : ℚ) : Int :=
  let delay : ℚ :=
    min ((ENTERPRISE_CONSTANTS.EXPONENTIAL_BACKOFF_BASE_MS : ℚ) * 2 ^ retryCount)
      (ENTERPRISE_CONSTANTS.EXPONENTIAL_BACKOFF_MAX_MS : ℚ)
  let jitter : ℚ := delay * (1 / 5) * (rnd - 1 / 2)
  ⌊delay + jitter⌋

/-- `recordSuccess`: reset the consecutive-failure counter and append to
the rolling (last-50) quality/timing histories. -/
def recordSuccess (st : EngineState) (qualityScore processingTime : Nat) :
    EngineState :=
  let qh := st.qualityScoreHistory ++ [qualityScore]
  let th := st.processingTimeHistory ++ [processingTime]
  { st with
    consecutiveFailures := 0,
    qualityScoreHistory := if qh.length > 50 then qh.drop 1 else qh,
    processingTimeHistory := if th.length > 50 then th.drop 1 else th }

/-- `recordFailure`: bump the consecutive-failure counter and, at the
threshold, set the circuit-breaker cooldown expiry. -/
def recordFailure (st : EngineState) (now : Nat) : EngineState :=
  let f := st.consecutiveFailures + 1
  if ENTERPRISE_CONSTANTS.CIRCUIT_BREAKER_THRESHOLD ≤ f then
    { st with consecutiveFailures := f,
              circuitBrokenUntil := some (now + ENTERPRISE_CONSTANTS.CIRCUIT_BREAKER_RESET_MS) }
  else { st with consecutiveFailures := f }

/-- Outcome of the multi-pass generation `while` loop: the last generated
content (`none` only when no pass ran), the number of generator
invocations made, and the inter-pass sleeps. -/
structure PassOutcome where
  result : Except String (Option ContentResult)
  passCount : Nat
  sleeps : List Nat
deriving Repr

/-- Body of the multi-pass `while (passCount < maxPasses)` loop of
`runGenerationPhase`, with `fuel = maxPasses - passCount` making the
loop's bounded iteration structural: each pass invokes the generator; a
score reaching `MIN_QUALITY_SCORE` breaks early; otherwise, with passes
remaining, the engine sleeps 2000 ms and runs another pass.  A generator
exception (`Except.error`) propagates out of the loop. -/
def passLoopAux (gen : Nat → Except String ContentResult) (maxPasses : Nat) :
    (fuel passCount : Nat) → PassOutcome
  | 0, passCount => ⟨.ok none, passCount, []⟩
  | fuel + 1, passCount =>
    let pc := passCount + 1
    match gen pc with
    | .error e => ⟨.error e, pc, []⟩
    | .ok c =>
      if ENTERPRISE_CONSTANTS.MIN_QUALITY_SCORE ≤ qualityOf c then
        ⟨.ok (some c), pc, []⟩
      else if pc < maxPasses then
        let r := passLoopAux gen maxPasses fuel pc
        ⟨r.result, r.passCount, 2000 :: r.sleeps⟩
      else ⟨.ok (some c), pc, []⟩

/-- The multi-pass quality loop, entered with `passCount` passes already
done (the engine enters it at `passCount = 0`). -/
def passLoop (gen : Nat → Except String ContentResult)
    (maxPasses passCount : Nat) : PassOutcome :=
  passLoopAux gen maxPasses (maxPasses - passCount) passCount

/-- WordPress credentials pulled from the app config by the Publish
phase; the empty string models a missing (JS-falsy) credential. -/
structure AppConfig where
  wpUrl : String
  wpUsername : String
  wpAppPassword : String
deriving Repr

/-- Outcome of the publisher `fetch` call: a rejected promise (network or
JSON error, carrying the thrown message) or an HTTP response with its
`ok` flag, status, and optional `link` in the JSON body. -/
inductive PublishOutcome where
  | netError (msg : String)
  | response (ok : Bool) (status : Nat) (link : Option String)
deriving Repr

/-- `runPublishPhase`: missing credentials or a non-ok response produce a
single `error` history entry whose message is prefixed
`"Generated but publish failed: "`; a successful response produces a
single `published` entry carrying the remote link. -/
def runPublishPhase (app : AppConfig) (item : QueueItem) (c : ContentResult)
    (processingTime qualityScore : Nat) (outcome : PublishOutcome) :
    List HistoryEntry :=
  let wordCount := wordCountOf c
  if app.wpUrl = "" ∨ app.wpUsername = "" ∨ app.wpAppPassword = "" then
    [{ url := item.url, action := .error, qualityScore := some qualityScore,
       error := some "Generated but publish failed: WordPress credentials not configured",
       processingTimeMs := some processingTime }]
  else
    match outcome with
    | .netError m =>
      [{ url := item.url, action := .error, qualityScore := some qualityScore,
         error := some ("Generated but publish failed: " ++ m),
         processingTimeMs := some processingTime }]
    | .response ok status link =>
      if ok then
        [{ url := item.url, action := .published, qualityScore := some qualityScore,
           wordPressUrl := link, processingTimeMs := some processingTime,
           wordCount := some wordCount }]
      else
        [{ url := item.url, action := .error, qualityScore := some qualityScore,
           error := some ("Generated but publish failed: WordPress API error: " ++ toString status),
           processingTimeMs := some processingTime }]

/-- `isPriorityItem` / `maxPasses` from `runGenerationPhase`: an item is a
priority item in priority-only mode or when manually sourced, and then
gets `MAX_QUALITY_IMPROVEMENT_PASSES` quality passes instead of one. -/
def maxPassesFor (priorityOnlyMode : Bool) (item : QueueItem) : Nat :=
  if priorityOnlyMode || item.source == Source.manual then
    ENTERPRISE_CONSTANTS.MAX_QUALITY_IMPROVEMENT_PASSES
  else 1

/-- Result of one invocation of the Generate phase: the new engine state,
the history entries appended, the number of generator invocations, and
the sleeps performed (ms). -/
structure GenPhaseResult where
  state : EngineState
  history : List HistoryEntry
  genCalls : Nat
  sleeps : List Nat
deriving Repr

/-- `runGenerationPhase`: check the circuit breaker (tripped → sleep 60 s
and return), pop the head item, run the multi-pass generation loop
(`maxPasses` = 3 for priority/manual items, else 1); on success record
success, gate on the configured quality threshold (`skipped` entry with
the content snapshot), then auto-publish or record `generated`; on a
generator exception record failure and either backoff-requeue
(`retryCount < config.retryAttempts`) or record a terminal `error` entry
and drop the item. -/
def runGenerationPhase (cfg : GodModeConfig) (priorityOnlyMode : Bool)
    (app : AppConfig) (slugOf : String → String)
    (gen : Nat → Except String ContentResult) (pubOutcome : PublishOutcome)
    (rnd : ℚ) (now elapsed : Nat) (st : EngineState) : GenPhaseResult :=
  let bs := isCircuitBroken st now
  if bs.1 then
    { state := bs.2, history := [], genCalls := 0, sleeps := [60000] }
  else
    match bs.2.queue with
    | [] => { state := bs.2, history := [], genCalls := 0, sleeps := [] }
    | item :: rest =>
      let st1 := { bs.2 with queue := rest }
      let p := passLoop gen (maxPassesFor priorityOnlyMode item) 0
      match p.result with
      | .error msg =>
        let st2 := recordFailure st1 now
        if item.retryCount < cfg.retryAttempts then
          let item' := { item with retryCount := item.retryCount + 1,
                                   lastError := some msg }
          let backoff := (calculateBackoffDelay item'.retryCount rnd).toNat
          { state := { st2 with queue := sortQueue (st2.queue ++ [item']) },
            history := [], genCalls := p.passCount,
            sleeps := p.sleeps ++ [backoff] }
        else
          { state := st2,
            history := [{ url := item.url, action := .error,
                          error := some ("Max retries (" ++ toString item.retryCount
                            ++ ") exceeded. Last error: " ++ msg),
                          processingTimeMs := some elapsed }],
            genCalls := p.passCount, sleeps := p.sleeps }
      | .ok copt =>
        -- `copt = none` only when `maxPasses = 0`; the engine always uses
        -- `maxPasses ∈ {1, 3}`, so a pass always ran here.
        let c := copt.getD { title := "", content := "", seoTitle := "",
                             metaDescription := "", qualityScore := none,
                             metrics := none }
        let qualityScore := qualityOf c
        let wordCount := wordCountOf c
        let st2 := recordSuccess st1 qualityScore elapsed
        let generatedContent : StoredContent :=
          { title := c.title, content := c.content, seoTitle := c.seoTitle,
            metaDescription := c.metaDescription, slug := slugOf item.url }
        if qualityScore < cfg.qualityThreshold then
          { state := st2,
            history := [{ url := item.url, action := .skipped,
                          qualityScore := some qualityScore,
                          processingTimeMs := some elapsed,
                          wordCount := some wordCount,
                          error := some ("Quality score " ++ toString qualityScore
                            ++ "% below threshold " ++ toString cfg.qualityThreshold
                            ++ "% after " ++ toString p.passCount ++ " pass(es)"),
                          generatedContent := some generatedContent }],
            genCalls := p.passCount, sleeps := p.sleeps }
        else
          let hist :=
            if cfg.autoPublish then
              runPublishPhase app item c elapsed qualityScore pubOutcome
            else
              [{ url := item.url, action := .generated,
                 qualityScore := some qualityScore,
                 processingTimeMs := some elapsed, wordCount := some wordCount,
                 generatedContent := some generatedContent }]
          { state := { st2 with processedToday := st2.processedToday + 1 },
            history := hist, genCalls := p.passCount,
            sleeps := p.sleeps ++ [cfg.processingIntervalMinutes * 60 * 1000] }

/-- `isWithinActiveHours`: weekends are excluded unless enabled
(`day` 0 = Sunday, 6 = Saturday), and the current hour must lie in
`[activeHoursStart, activeHoursEnd)`. -/
def isWithinActiveHours (cfg : GodModeConfig) (hour day : Nat) : Bool :=
  if !cfg.enableWeekends && (day == 0 || day == 6) then false
  else cfg.activeHoursStart ≤ hour && hour < cfg.activeHoursEnd

/-- `shouldScan`: scan when no scan has happened yet, or when at least
`scanIntervalHours` have elapsed since the last scan
(`(now - lastScan) / 3 600 000 ≥ scanIntervalHours`, cleared of the
division). -/
def shouldScan (cfg : GodModeConfig) (lastScanTime : Option Nat) (now : Nat) :
    Bool :=
  match lastScanTime with
  | none => true
  | some t => cfg.scanIntervalHours * 3600000 ≤ now - t

/-- Result of `runScanPhase` on the engine fields it touches:
`scanPerformed` records whether the scan side effects (`lastScanAt` /
`nextScanAt` stats update and the scan-complete log) happened. -/
structure ScanResult where
  lastScanTime : Option Nat
  scanPerformed : Bool
deriving DecidableEq, Repr

/-- `runScanPhase`: defensively guarded — in Priority Only Mode it logs a
warning and returns without recording `lastScanAt` or any other scan side
effect; otherwise it records the scan time. -/
def runScanPhase (priorityOnlyMode : Bool) (lastScanTime : Option Nat)
    (now : Nat) : ScanResult :=
  if priorityOnlyMode then ⟨lastScanTime, false⟩
  else ⟨some now, true⟩

/-- The actions one `mainLoop` iteration can take. -/
inductive PhaseAction where
  | sleep (ms : Nat)
  | scanPhase
  | scorePhase
  | generatePhase
  | stopEngine
deriving DecidableEq, Repr

/-- One iteration of `mainLoop` as the sequence of actions it performs,
given the gate inputs it reads.  `queueLen` is the queue length at the
top of the iteration and `queueLenAfterScore` the length after a Score
phase, which mutates the queue (full mode re-checks `queue.length` after
Phase 2). -/
def mainLoopIter (cfg : GodModeConfig) (priorityOnlyMode isPaused : Bool)
    (hour day processedToday : Nat) (lastScanTime : Option Nat) (now : Nat)
    (queueLen queueLenAfterScore : Nat) : List PhaseAction :=
  if isPaused then [.sleep 1000]
  else if !isWithinActiveHours cfg hour day then [.sleep 60000]
  else if cfg.maxPerDay ≤ processedToday then [.sleep 3600000]
  else if priorityOnlyMode then
    if 0 < queueLen then [.generatePhase] else [.stopEngine]
  else
    (if shouldScan cfg lastScanTime now then [.scanPhase] else []) ++
      (if queueLen = 0 then [.scorePhase] else []) ++
      (if 0 < (if queueLen = 0 then queueLenAfterScore else queueLen)
        then [.generatePhase]
        else [.sleep (cfg.processingIntervalMinutes * 60 * 1000)])

/-- Result of `start`: re-entrant call (warning, no state change), a
thrown configuration error (engine stays idle, nothing mutated), or a
successful start with the initial queue (pre-populated in Priority Only
Mode). -/
inductive StartResult where
  | alreadyRunning
  | configError (msg : String)
  | started (initialQueue : List QueueItem)
deriving DecidableEq, Repr

/-- Whether a `StartResult` is a thrown configuration error. -/
def StartResult.isConfigError : StartResult → Bool
  | .configError _ => true
  | _ => false

/-- `start()`: a no-op when already running; in Priority Only Mode with an
empty caller-supplied priority list it throws before mutating anything;
otherwise it starts, pre-populating the queue in Priority Only Mode.  The
second component is `isRunning` after the call. -/
def start (priorityOnlyMode : Bool) (priorityUrls : List PriorityUrl)
    (isExcluded : String → Bool) (now : Nat) (isRunning : Bool) :
    StartResult × Bool :=
  if isRunning then (.alreadyRunning, isRunning)
  else if priorityOnlyMode && priorityUrls.isEmpty then
    (.configError "Priority Only Mode requires at least one URL in the Priority Queue. Add URLs to your priority queue first.",
      false)
  else if priorityOnlyMode then
    (.started (initializePriorityQueue priorityUrls isExcluded now), true)
  else (.started [], true)

/-! ## Helper lemmas -/

theorem recordFailure_queue (st : EngineState) (now : Nat) :
    (recordFailure st now).queue = st.queue := by
  simp only [recordFailure]; split <;> rfl

theorem recordFailure_consecutiveFailures (st : EngineState) (now : Nat) :
    (recordFailure st now).consecutiveFailures = st.consecutiveFailures + 1 := by
  simp only [recordFailure]; split <;> rfl

theorem recordSuccess_queue (st : EngineState) (q t : Nat) :
    (recordSuccess st q t).queue = st.queue := rfl

theorem recordSuccess_consecutiveFailures (st : EngineState) (q t : Nat) :
    (recordSuccess st q t).consecutiveFailures = 0 := rfl

theorem isCircuitBroken_none {st : EngineState} (now : Nat)
    (h : st.circuitBrokenUntil = none) : isCircuitBroken st now = (false, st) := by
  unfold isCircuitBroken; rw [h]

theorem isCircuitBroken_active {st : EngineState} {t : Nat} (now : Nat)
    (h : st.circuitBrokenUntil = some t) (hlt : now < t) :
    isCircuitBroken st now = (true, st) := by
  unfold isCircuitBroken; rw [h]; simp; omega

theorem isCircuitBroken_expired {st : EngineState} {t : Nat} (now : Nat)
    (h : st.circuitBrokenUntil = some t) (hle : t ≤ now) :
    isCircuitBroken st now =
      (false, { st with circuitBrokenUntil := none, consecutiveFailures := 0 }) := by
  unfold isCircuitBroken; rw [h]; simp [hle]

/-- The Generate phase while the circuit breaker is tripped: nothing is
popped, no generator call is made, the engine sleeps 60 s. -/
theorem genPhase_broken {st : EngineState} {t : Nat}
    (cfg : GodModeConfig) (pom : Bool) (app : AppConfig)
    (slugOf : String → String) (gen : Nat → Except String ContentResult)
    (pub : PublishOutcome) (rnd : ℚ) (now elapsed : Nat)
    (hb : st.circuitBrokenUntil = some t) (hlt : now < t) :
    runGenerationPhase cfg pom app slugOf gen pub rnd now elapsed st =
      { state := st, history := [], genCalls := 0, sleeps := [60000] } := by
  unfold runGenerationPhase
  rw [isCircuitBroken_active now hb hlt]
  rfl

/-- The Generate phase on a generator exception with retries left:
requeue with incremented retry count, backoff sleep, no history entry. -/
theorem genPhase_failure_retry (cfg : GodModeConfig) (pom : Bool)
    (app : AppConfig) (slugOf : String → String)
    (gen : Nat → Except String ContentResult) (pub : PublishOutcome) (rnd : ℚ)
    (now elapsed : Nat) (item : QueueItem) (rest : List QueueItem)
    (cf : Nat) (qh th : List Nat) (pt : Nat) {msg : String}
    (hp : (passLoop gen (maxPassesFor pom item) 0).result = .error msg)
    (hr : item.retryCount < cfg.retryAttempts) :
    runGenerationPhase cfg pom app slugOf gen pub rnd now elapsed
      ⟨item :: rest, cf, none, qh, th, pt⟩ =
      { state := { recordFailure ⟨rest, cf, none, qh, th, pt⟩ now with
                   queue := sortQueue (rest ++
                     [{ item with retryCount := item.retryCount + 1,
                                  lastError := some msg }]) },
        history := [],
        genCalls := (passLoop gen (maxPassesFor pom item) 0).passCount,
        sleeps := (passLoop gen (maxPassesFor pom item) 0).sleeps ++
          [(calculateBackoffDelay (item.retryCount + 1) rnd).toNat] } := by
  simp only [runGenerationPhase, isCircuitBroken, hp, hr, if_true,
    recordFailure_queue]
  rfl

/-- The Generate phase on a generator exception with retries exhausted:
one terminal `error` history entry, item dropped. -/
theorem genPhase_failure_drop (cfg : GodModeConfig) (pom : Bool)
    (app : AppConfig) (slugOf : String → String)
    (gen : Nat → Except String ContentResult) (pub : PublishOutcome) (rnd : ℚ)
    (now elapsed : Nat) (item : QueueItem) (rest : List QueueItem)
    (cf : Nat) (qh th : List Nat) (pt : Nat) {msg : String}
    (hp : (passLoop gen (maxPassesFor pom item) 0).result = .error msg)
    (hr : ¬ item.retryCount < cfg.retryAttempts) :
    runGenerationPhase cfg pom app slugOf gen pub rnd now elapsed
      ⟨item :: rest, cf, none, qh, th, pt⟩ =
      { state := recordFailure ⟨rest, cf, none, qh, th, pt⟩ now,
        history := [{ url := item.url, action := .error,
                      error := some ("Max retries (" ++ toString item.retryCount
                        ++ ") exceeded. Last error: " ++ msg),
                      processingTimeMs := some elapsed }],
        genCalls := (passLoop gen (maxPassesFor pom item) 0).passCount,
        sleeps := (passLoop gen (maxPassesFor pom item) 0).sleeps } := by
  simp only [runGenerationPhase, isCircuitBroken, hp, hr, if_false]
  rfl

/-- The Generate phase on a successful multi-pass run whose final score is
below the configured quality threshold: record success, store a `skipped`
entry carrying the content snapshot, and return. -/
theorem genPhase_success_skipped (cfg : GodModeConfig) (pom : Bool)
    (app : AppConfig) (slugOf : String → String)
    (gen : Nat → Except String ContentResult) (pub : PublishOutcome) (rnd : ℚ)
    (now elapsed : Nat) (item : QueueItem) (rest : List QueueItem)
    (cf : Nat) (qh th : List Nat) (pt : Nat) {c : ContentResult}
    (hp : (passLoop gen (maxPassesFor pom item) 0).result = .ok (some c))
    (hq : qualityOf c < cfg.qualityThreshold) :
    runGenerationPhase cfg pom app slugOf gen pub rnd now elapsed
      ⟨item :: rest, cf, none, qh, th, pt⟩ =
      { state := recordSuccess ⟨rest, cf, none, qh, th, pt⟩ (qualityOf c) elapsed,
        history := [{ url := item.url, action := .skipped,
                      qualityScore := some (qualityOf c),
                      wordCount := some (wordCountOf c),
                      processingTimeMs := some elapsed,
                      error := some ("Quality score " ++ toString (qualityOf c)
                        ++ "% below threshold " ++ toString cfg.qualityThreshold
                        ++ "% after "
                        ++ toString (passLoop gen (maxPassesFor pom item) 0).passCount
                        ++ " pass(es)"),
                      generatedContent := some
                        { title := c.title, content := c.content,
                          seoTitle := c.seoTitle,
                          metaDescription := c.metaDescription,
                          slug := slugOf item.url } }],
        genCalls := (passLoop gen (maxPassesFor pom item) 0).passCount,
        sleeps := (passLoop gen (maxPassesFor pom item) 0).sleeps } := by
  simp only [runGenerationPhase, isCircuitBroken, hp, hq, if_true,
    Option.getD_some]
  rfl

/-- The Generate phase on a successful multi-pass run meeting the
configured quality threshold: record success, publish (or record
`generated`), bump `processedToday`, sleep the processing interval. -/
theorem genPhase_success_publish (cfg : GodModeConfig) (pom : Bool)
    (app : AppConfig) (slugOf : String → String)
    (gen : Nat → Except String ContentResult) (pub : PublishOutcome) (rnd : ℚ)
    (now elapsed : Nat) (item : QueueItem) (rest : List QueueItem)
    (cf : Nat) (qh th : List Nat) (pt : Nat) {c : ContentResult}
    (hp : (passLoop gen (maxPassesFor pom item) 0).result = .ok (some c))
    (hq : ¬ qualityOf c < cfg.qualityThreshold) :
    runGenerationPhase cfg pom app slugOf gen pub rnd now elapsed
      ⟨item :: rest, cf, none, qh, th, pt⟩ =
      { state := { recordSuccess ⟨rest, cf, none, qh, th, pt⟩ (qualityOf c) elapsed with
                   processedToday :=
                     (recordSuccess ⟨rest, cf, none, qh, th, pt⟩ (qualityOf c) elapsed).processedToday + 1 },
        history :=
          if cfg.autoPublish then
            runPublishPhase app item c elapsed (qualityOf c) pub
          else
            [{ url := item.url, action := .generated,
               qualityScore := some (qualityOf c),
               wordCount := some (wordCountOf c),
               processingTimeMs := some elapsed,
               generatedContent := some
                 { title := c.title, content := c.content,
                   seoTitle := c.seoTitle,
                   metaDescription := c.metaDescription,
                   slug := slugOf item.url } }],
        genCalls := (passLoop gen (maxPassesFor pom item) 0).passCount,
        sleeps := (passLoop gen (maxPassesFor pom item) 0).sleeps ++
          [cfg.processingIntervalMinutes * 60 * 1000] } := by
  simp only [runGenerationPhase, isCircuitBroken, hp, hq, if_false,
    Option.getD_some]
  rfl

/-! ## Claim C2: queue ordering invariant -/

/-- C2: every queue state produced by the engine's sorting operation —
priority-queue initialization, the end of the Score phase, and the
requeue after a failed generation — is ordered so that priority ranks
(`critical < high < medium < low`) never decrease along the queue and
items of equal priority are in ascending `healthScore` order. -/
theorem queue_states_ordered :
    (∀ q : List QueueItem, QueueOrdered (sortQueue q)) ∧
    (∀ (priorityUrls : List PriorityUrl) (isExcluded : String → Bool) (now : Nat),
      QueueOrdered (initializePriorityQueue priorityUrls isExcluded now)) ∧
    (∀ (cfg : GodModeConfig) (pom : Bool) (sitemapUrls : List String)
        (priorityUrls : List PriorityUrl) (isExcluded : String → Bool)
        (analyze : String → Option Nat) (now : Nat) (queue : List QueueItem),
      QueueOrdered queue →
      QueueOrdered (runScoringPhase cfg pom sitemapUrls priorityUrls isExcluded
        analyze now queue).queue) ∧
    (∀ (cfg : GodModeConfig) (pom : Bool) (app : AppConfig)
        (slugOf : String → String) (gen : Nat → Except String ContentResult)
        (pub : PublishOutcome) (rnd : ℚ) (now elapsed : Nat) (item : QueueItem)
        (rest : List QueueItem) (cf : Nat) (qh th : List Nat) (pt : Nat)
        (msg : String),
      (passLoop gen (maxPassesFor pom item) 0).result = .error msg →
      item.retryCount < cfg.retryAttempts →
      QueueOrdered (runGenerationPhase cfg pom app slugOf gen pub rnd now elapsed
        ⟨item :: rest, cf, none, qh, th, pt⟩).state.queue) := by
  refine ⟨sortQueue_ordered, fun priorityUrls isExcluded now => ?_, ?_, ?_⟩
  · exact sortQueue_ordered _
  · intro cfg pom sitemapUrls priorityUrls isExcluded analyze now queue hord
    simp only [runScoringPhase]
    split <;> split <;> first
      | exact hord
      | exact sortQueue_ordered _
  · intro cfg pom app slugOf gen pub rnd now elapsed item rest cf qh th pt msg hp hr
    rw [genPhase_failure_retry cfg pom app slugOf gen pub rnd now elapsed
      item rest cf qh th pt hp hr]
    exact sortQueue_ordered _

/-- Witness for `queue_states_ordered` at concrete inputs. -/
theorem queue_states_ordered_witness :
    QueueOrdered (runScoringPhase
      ⟨70, 3, 60, 25, 5, 24, 8, 20, false, true, "draft"⟩ false
      ["https://e.com/x"] [] (fun _ => false) (fun _ => some 40) 7 []).queue ∧
    QueueOrdered (runGenerationPhase
      ⟨70, 3, 60, 25, 5, 24, 8, 20, false, true, "draft"⟩ true
      ⟨"https://e.com", "admin", "pw"⟩ (fun _ => "a") (fun _ => .error "boom")
      (.response true 200 none) (1/2) 1000 5000
      ⟨[⟨"", "https://e.com/a", .critical, 10, 0, .manual, 0, none⟩], 0, none,
        [], [], 0⟩).state.queue :=
  ⟨queue_states_ordered.2.2.1 _ false _ [] _ _ 7 [] (fun i => i.elim0),
    queue_states_ordered.2.2.2 _ true _ _ _ _ (1/2) 1000 5000 _ [] 0 [] [] 0
      "boom" rfl (by decide)⟩

/-! ## Claim C8: priority-only mode never scans -/

/-- C8: with priority-only mode active, no main-loop iteration performs
the Scan phase, and `runScanPhase` itself, if called in that mode,
returns without recording `lastScanAt` or performing any scan side
effect. -/
theorem priority_mode_never_scans :
    (∀ (cfg : GodModeConfig) (isPaused : Bool) (hour day processedToday : Nat)
        (lastScanTime : Option Nat) (now queueLen queueLenAfterScore : Nat),
      PhaseAction.scanPhase ∉
        mainLoopIter cfg true isPaused hour day processedToday lastScanTime now
          queueLen queueLenAfterScore) ∧
    (∀ (lastScanTime : Option Nat) (now : Nat),
      runScanPhase true lastScanTime now = ⟨lastScanTime, false⟩) := by
  constructor
  · intro cfg isPaused hour day processedToday lastScanTime now queueLen qas
    unfold mainLoopIter
    split_ifs <;> simp_all
  · intro lastScanTime now
    rfl

/-- Witness for `priority_mode_never_scans` at concrete inputs. -/
theorem priority_mode_never_scans_witness :
    PhaseAction.scanPhase ∉
      mainLoopIter ⟨70, 3, 60, 25, 5, 24, 8, 20, false, true, "draft"⟩ true
        false 10 3 0 none 1000 2 2 ∧
    runScanPhase true (some 5) 9 = ⟨some 5, false⟩ :=
  ⟨priority_mode_never_scans.1 _ false 10 3 0 none 1000 2 2,
    priority_mode_never_scans.2 (some 5) 9⟩

/-! ## Claim C9: start() validation in priority-only mode -/

/-- C9: `start()` on a non-running engine with priority-only mode and an
empty priority list throws the configuration error and leaves the engine
idle (`isRunning` stays `false`, no state mutated); with a non-empty list
or with the mode off, `start()` does not raise a configuration error. -/
theorem start_priority_validation :
    (∀ (isExcluded : String → Bool) (now : Nat),
      start true [] isExcluded now false =
        (.configError "Priority Only Mode requires at least one URL in the Priority Queue. Add URLs to your priority queue first.",
          false)) ∧
    (∀ (pom : Bool) (priorityUrls : List PriorityUrl)
        (isExcluded : String → Bool) (now : Nat),
      pom = false ∨ priorityUrls ≠ [] →
      ((start pom priorityUrls isExcluded now false).1.isConfigError = false)) := by
  constructor
  · intro isExcluded now
    rfl
  · intro pom priorityUrls isExcluded now h
    rcases h with h | h
    · subst h
      simp [start, StartResult.isConfigError]
    · cases priorityUrls with
      | nil => exact absurd rfl h
      | cons p ps =>
        cases pom <;> simp [start, StartResult.isConfigError]

/-- Witness for `start_priority_validation` at concrete inputs. -/
theorem start_priority_validation_witness :
    start true [] (fun _ => false) 0 false =
      (.configError "Priority Only Mode requires at least one URL in the Priority Queue. Add URLs to your priority queue first.",
        false) ∧
    (start true [⟨"https://e.com/a", .critical⟩] (fun _ => false) 0 false).1.isConfigError
      = false :=
  ⟨start_priority_validation.1 (fun _ => false) 0,
    start_priority_validation.2 true [⟨"https://e.com/a", .critical⟩]
      (fun _ => false) 0 (Or.inr (by simp))⟩

/-! ## Claims C3 and C10: URL dedup and the 20-URL scoring batch limit -/

theorem initStep_mem_urls {isExcluded : String → Bool} {now : Nat}
    {q : List QueueItem} {p : PriorityUrl} {it : QueueItem}
    (h : it ∈ initStep isExcluded now q p) : it ∈ q ∨ it.url = p.url := by
  unfold initStep at h
  split at h
  · exact Or.inl h
  · split at h
    · exact Or.inl h
    · rcases List.mem_append.mp h with h' | h'
      · exact Or.inl h'
      · simp at h'
        subst h'
        exact Or.inr rfl

theorem initStep_urls_nodup {isExcluded : String → Bool} {now : Nat}
    {q : List QueueItem} (p : PriorityUrl) (h : (urlsOf q).Nodup) :
    (urlsOf (initStep isExcluded now q p)).Nodup := by
  unfold initStep
  split
  · exact h
  · split
    · exact h
    · next hnot =>
      have hmem : ∀ it ∈ q, ¬ it.url = p.url := by
        intro it hit heq
        exact hnot (List.any_eq_true.mpr ⟨it, hit, by simp [heq]⟩)
      simpa [urlsOf, List.nodup_append] using ⟨h, hmem⟩

theorem foldl_initStep_urls_nodup (isExcluded : String → Bool) (now : Nat) :
    ∀ (ps : List PriorityUrl) (q : List QueueItem), (urlsOf q).Nodup →
      (urlsOf (ps.foldl (initStep isExcluded now) q)).Nodup := by
  intro ps
  induction ps with
  | nil => exact fun q h => h
  | cons p ps ih =>
    intro q h
    exact ih _ (initStep_urls_nodup p h)

theorem sortQueue_urls_nodup {q : List QueueItem} (h : (urlsOf q).Nodup) :
    (urlsOf (sortQueue q)).Nodup := by
  unfold urlsOf at h ⊢
  exact (((sortQueue_perm q).map (fun it => it.url)).nodup_iff).mpr h

theorem scoreStep_mem_urls {cfg : GodModeConfig}
    {priorityUrls : List PriorityUrl} {analyze : String → Option Nat}
    {now : Nat} {q : List QueueItem} {url : String} {it : QueueItem}
    (h : it ∈ scoreStep cfg priorityUrls analyze now q url) :
    it ∈ q ∨ it.url = url := by
  unfold scoreStep at h
  split at h
  · exact Or.inl h
  · split at h
    · rcases List.mem_append.mp h with h' | h'
      · exact Or.inl h'
      · simp at h'
        subst h'
        exact Or.inr rfl
    · exact Or.inl h

theorem scoreStep_urls_nodup {cfg : GodModeConfig}
    {priorityUrls : List PriorityUrl} {analyze : String → Option Nat}
    {now : Nat} {q : List QueueItem} (url : String)
    (h : (urlsOf q).Nodup) :
    (urlsOf (scoreStep cfg priorityUrls analyze now q url)).Nodup := by
  unfold scoreStep
  split
  · exact h
  · split
    · next hcond =>
      rw [Bool.and_eq_true] at hcond
      obtain ⟨-, hn⟩ := hcond
      have hmem : ∀ it ∈ q, ¬ it.url = url := by
        intro it hit heq
        have : q.any (·.url == url) = true :=
          List.any_eq_true.mpr ⟨it, hit, by simp [heq]⟩
        simp [this] at hn
      simpa [urlsOf, List.nodup_append] using ⟨h, hmem⟩
    · exact h

theorem foldl_scoreStep_urls_nodup (cfg : GodModeConfig)
    (priorityUrls : List PriorityUrl) (analyze : String → Option Nat)
    (now : Nat) :
    ∀ (urls : List String) (q : List QueueItem), (urlsOf q).Nodup →
      (urlsOf (urls.foldl (scoreStep cfg priorityUrls analyze now) q)).Nodup := by
  intro urls
  induction urls with
  | nil => exact fun q h => h
  | cons u us ih =>
    intro q h
    exact ih _ (scoreStep_urls_nodup u h)

theorem foldl_scoreStep_mem (cfg : GodModeConfig)
    (priorityUrls : List PriorityUrl) (analyze : String → Option Nat)
    (now : Nat) :
    ∀ (urls : List String) (q : List QueueItem) (it : QueueItem),
      it ∈ urls.foldl (scoreStep cfg priorityUrls analyze now) q →
      it ∈ q ∨ it.url ∈ urls := by
  intro urls
  induction urls with
  | nil => exact fun q it h => Or.inl h
  | cons u us ih =>
    intro q it h
    rcases ih _ it h with h' | h'
    · rcases scoreStep_mem_urls h' with h'' | h''
      · exact Or.inl h''
      · exact Or.inr (by simp [h''])
    · exact Or.inr (List.mem_cons_of_mem u h')

/-- C3: a URL appears at most once in the queue.  Priority-queue
initialization yields a queue with pairwise-distinct URLs; the Score phase
preserves URL distinctness; and both insertion sites are idempotent on
URL — inserting a URL that is already queued leaves the queue
unchanged. -/
theorem queue_url_dedup :
    (∀ (priorityUrls : List PriorityUrl) (isExcluded : String → Bool) (now : Nat),
      (urlsOf (initializePriorityQueue priorityUrls isExcluded now)).Nodup) ∧
    (∀ (cfg : GodModeConfig) (pom : Bool) (sitemapUrls : List String)
        (priorityUrls : List PriorityUrl) (isExcluded : String → Bool)
        (analyze : String → Option Nat) (now : Nat) (queue : List QueueItem),
      (urlsOf queue).Nodup →
      (urlsOf (runScoringPhase cfg pom sitemapUrls priorityUrls isExcluded
        analyze now queue).queue).Nodup) ∧
    (∀ (isExcluded : String → Bool) (now : Nat) (q : List QueueItem)
        (p : PriorityUrl),
      q.any (·.url == p.url) → initStep isExcluded now q p = q) ∧
    (∀ (cfg : GodModeConfig) (priorityUrls : List PriorityUrl)
        (analyze : String → Option Nat) (now : Nat) (q : List QueueItem)
        (url : String),
      q.any (·.url == url) → scoreStep cfg priorityUrls analyze now q url = q) := by
  refine ⟨?_, ?_, ?_, ?_⟩
  · intro priorityUrls isExcluded now
    exact sortQueue_urls_nodup
      (foldl_initStep_urls_nodup isExcluded now priorityUrls [] (by simp [urlsOf]))
  · intro cfg pom sitemapUrls priorityUrls isExcluded analyze now queue h
    simp only [runScoringPhase]
    split <;> split
    · exact h
    · exact sortQueue_urls_nodup
        (foldl_scoreStep_urls_nodup cfg priorityUrls analyze now _ _ h)
    · exact h
    · exact sortQueue_urls_nodup
        (foldl_scoreStep_urls_nodup cfg priorityUrls analyze now _ _ h)
  · intro isExcluded now q p hany
    simp [initStep, hany]
  · intro cfg priorityUrls analyze now q url hany
    unfold scoreStep
    split
    · rfl
    · simp [hany]

/-- Witness for `queue_url_dedup` at concrete inputs. -/
theorem queue_url_dedup_witness :
    (urlsOf (runScoringPhase ⟨70, 3, 60, 25, 5, 24, 8, 20, false, true, "draft"⟩
      false ["https://e.com/x", "https://e.com/x"] [] (fun _ => false)
      (fun _ => some 40) 7 []).queue).Nodup ∧
    scoreStep ⟨70, 3, 60, 25, 5, 24, 8, 20, false, true, "draft"⟩ []
      (fun _ => some 40) 7
      [⟨"", "https://e.com/x", .high, 40, 7, .scan, 0, none⟩] "https://e.com/x" =
      [⟨"", "https://e.com/x", .high, 40, 7, .scan, 0, none⟩] :=
  ⟨queue_url_dedup.2.1 _ false _ [] _ _ 7 [] (by simp [urlsOf]),
    queue_url_dedup.2.2.2 _ [] _ 7 _ "https://e.com/x" (by decide)⟩

/-- C10: a single Score-phase invocation analyzes at most 20 candidate
URLs — the non-excluded candidate list is truncated to its first 20
entries before any analyzer call — and every queue entry it adds comes
from those first 20 candidates, so later candidates are neither analyzed
nor queued in that invocation. -/
theorem scoring_batch_limit
    (cfg : GodModeConfig) (pom : Bool) (sitemapUrls : List String)
    (priorityUrls : List PriorityUrl) (isExcluded : String → Bool)
    (analyze : String → Option Nat) (now : Nat) (queue : List QueueItem) :
    (runScoringPhase cfg pom sitemapUrls priorityUrls isExcluded analyze now
        queue).analyzed =
      ((if pom then priorityUrls.map (·.url) else sitemapUrls).filter
        (fun u => !isExcluded u)).take 20 ∧
    (runScoringPhase cfg pom sitemapUrls priorityUrls isExcluded analyze now
        queue).analyzed.length ≤ 20 ∧
    (∀ it : QueueItem,
      it ∈ (runScoringPhase cfg pom sitemapUrls priorityUrls isExcluded analyze
        now queue).queue →
      it ∈ queue ∨ it.url ∈ (runScoringPhase cfg pom sitemapUrls priorityUrls
        isExcluded analyze now queue).analyzed) := by
  simp only [runScoringPhase]
  generalize List.filter (fun u => !isExcluded u)
    (if pom = true then List.map (fun p => p.url) priorityUrls else sitemapUrls) = F
  split
  · next hemp =>
    refine ⟨?_, by simp, fun it h => Or.inl h⟩
    rw [List.isEmpty_iff] at hemp
    rw [hemp]
    rfl
  · refine ⟨rfl, List.length_take_le 20 _, fun it h => ?_⟩
    exact foldl_scoreStep_mem cfg priorityUrls analyze now _ _ it
      (((sortQueue_perm _).mem_iff).mp h)

/-- Witness for `scoring_batch_limit` at a concrete input. -/
theorem scoring_batch_limit_witness :
    (runScoringPhase ⟨70, 3, 60, 25, 5, 24, 8, 20, false, true, "draft"⟩ false
        ["https://e.com/x"] [] (fun _ => false) (fun _ => some 40) 7
        []).analyzed.length ≤ 20 ∧
    (∀ it : QueueItem,
      it ∈ (runScoringPhase ⟨70, 3, 60, 25, 5, 24, 8, 20, false, true, "draft"⟩
        false ["https://e.com/x"] [] (fun _ => false) (fun _ => some 40) 7
        []).queue →
      it ∈ ([] : List QueueItem) ∨
        it.url ∈ (runScoringPhase ⟨70, 3, 60, 25, 5, 24, 8, 20, false, true, "draft"⟩
          false ["https://e.com/x"] [] (fun _ => false) (fun _ => some 40) 7
          []).analyzed) :=
  ⟨(scoring_batch_limit _ false _ [] _ _ 7 []).2.1,
    (scoring_batch_limit _ false _ [] _ _ 7 []).2.2⟩

/-! ## Claim C6: backoff delay formula and jitter width -/

theorem dvd_backoff_delay (retryCount : Nat) :
    10 ∣ min (ENTERPRISE_CONSTANTS.EXPONENTIAL_BACKOFF_BASE_MS * 2 ^ retryCount)
      ENTERPRISE_CONSTANTS.EXPONENTIAL_BACKOFF_MAX_MS := by
  rcases le_total (ENTERPRISE_CONSTANTS.EXPONENTIAL_BACKOFF_BASE_MS * 2 ^ retryCount)
      ENTERPRISE_CONSTANTS.EXPONENTIAL_BACKOFF_MAX_MS with h | h
  · rw [min_eq_left h]
    exact Dvd.dvd.mul_right (by norm_num [ENTERPRISE_CONSTANTS.EXPONENTIAL_BACKOFF_BASE_MS]) _
  · rw [min_eq_right h]
    norm_num [ENTERPRISE_CONSTANTS.EXPONENTIAL_BACKOFF_MAX_MS]

/-- C6 (divergence witness): the backoff delay is
`min(5000 · 2^retryCount, 300000)` jittered by **±10 %**, not ±20 %: for
every jitter draw `rnd ∈ [0,1)` the returned delay lies between
`0.9 · delay` and `1.1 · delay`, so the ±20 % range claimed by the spec
(and by the code's own comment) is never reached. -/
theorem backoff_jitter_is_ten_percent (retryCount : Nat) (rnd : ℚ)
    (h0 : 0 ≤ rnd) (h1 : rnd < 1) :
    ((9 * min (ENTERPRISE_CONSTANTS.EXPONENTIAL_BACKOFF_BASE_MS * 2 ^ retryCount)
        ENTERPRISE_CONSTANTS.EXPONENTIAL_BACKOFF_MAX_MS / 10 : Nat) : Int) ≤
      calculateBackoffDelay retryCount rnd ∧
    calculateBackoffDelay retryCount rnd ≤
      ((11 * min (ENTERPRISE_CONSTANTS.EXPONENTIAL_BACKOFF_BASE_MS * 2 ^ retryCount)
        ENTERPRISE_CONSTANTS.EXPONENTIAL_BACKOFF_MAX_MS / 10 : Nat) : Int) := by
  obtain ⟨k, hk⟩ := dvd_backoff_delay retryCount
  have hdelayQ :
      (min ((ENTERPRISE_CONSTANTS.EXPONENTIAL_BACKOFF_BASE_MS : ℚ) * 2 ^ retryCount)
        (ENTERPRISE_CONSTANTS.EXPONENTIAL_BACKOFF_MAX_MS : ℚ)) = (10 * k : ℚ) := by
    have : ((min (ENTERPRISE_CONSTANTS.EXPONENTIAL_BACKOFF_BASE_MS * 2 ^ retryCount)
        ENTERPRISE_CONSTANTS.EXPONENTIAL_BACKOFF_MAX_MS : Nat) : ℚ) = (10 * k : ℚ) := by
      rw [hk]; push_cast; ring
    rw [← this]
    push_cast [Nat.cast_min]
    ring_nf
  have hx : calculateBackoffDelay retryCount rnd = ⌊(9 * k + 2 * k * rnd : ℚ)⌋ := by
    unfold calculateBackoffDelay
    rw [hdelayQ]
    ring_nf
  constructor
  · rw [hx, hk]
    have h10 : (9 * (10 * k) / 10 : Nat) = 9 * k := by omega
    rw [h10]
    rw [Int.le_floor]
    push_cast
    nlinarith [mul_nonneg (Nat.cast_nonneg (α := ℚ) k) h0]
  · rw [hx, hk]
    have h10 : (11 * (10 * k) / 10 : Nat) = 11 * k := by omega
    rw [h10]
    have hfl : (⌊(9 * k + 2 * k * rnd : ℚ)⌋ : ℚ) ≤ (9 * k + 2 * k * rnd : ℚ) :=
      Int.floor_le _
    have hub : (9 * k + 2 * k * rnd : ℚ) ≤ 11 * k := by
      nlinarith [mul_le_mul_of_nonneg_left h1.le (by positivity : (0:ℚ) ≤ 2 * k)]
    have : (⌊(9 * k + 2 * k * rnd : ℚ)⌋ : ℚ) ≤ ((11 * k : Int) : ℚ) := by
      push_cast
      linarith
    exact_mod_cast this

/-- Witness for `backoff_jitter_is_ten_percent` at `retryCount = 0`,
`rnd = 0`: the delay is 4500 ms (not the 4000 ms a ±20 % jitter could
produce). -/
theorem backoff_jitter_is_ten_percent_witness :
    (4500 : Int) ≤ calculateBackoffDelay 0 0 ∧
      calculateBackoffDelay 0 0 ≤ 5500 := by
  have h := backoff_jitter_is_ten_percent 0 0 le_rfl (by norm_num)
  simpa [ENTERPRISE_CONSTANTS.EXPONENTIAL_BACKOFF_BASE_MS,
    ENTERPRISE_CONSTANTS.EXPONENTIAL_BACKOFF_MAX_MS] using h

/-! ## Claim C1: the multi-pass quality loop -/

/-- C1 counterexample: with the configured quality threshold 70, a
priority/manual item, and the generator returning quality 75 on every
pass (75 ≥ 70, the configured threshold), the Generate phase still makes
3 generator calls — the loop does **not** stop early when a pass meets
the configured threshold; it only stops at the internal target of 90. -/
theorem multipass_counterexample :
    70 ≤ qualityOf ⟨"T", "B", "S", "M", some ⟨75⟩, some ⟨1200⟩⟩ ∧
    (runGenerationPhase ⟨70, 3, 60, 25, 5, 24, 8, 20, false, false, "draft"⟩
      true ⟨"https://e.com", "admin", "pw"⟩ (fun _ => "a")
      (fun _ => .ok ⟨"T", "B", "S", "M", some ⟨75⟩, some ⟨1200⟩⟩)
      (.response true 200 none) (1/2) 1000 5000
      ⟨[⟨"", "https://e.com/a", .critical, 10, 0, .manual, 0, none⟩], 0, none,
        [], [], 0⟩).genCalls = 3 :=
  ⟨by norm_num [qualityOf], rfl⟩

/-- C1 (amended): for a priority/manual item (max passes = 3), the loop
makes between 1 and 3 generator calls, keeps the last pass's content,
never runs a further pass after one reaches the internal target
`MIN_QUALITY_SCORE = 90` (and every non-final pass scored below 90), only
ends below 90 when the 3-pass maximum is exhausted, and sleeps 2000 ms
between consecutive passes.  The configured threshold (e.g. 70) plays no
role in the early-stop decision. -/
theorem multipass_stops_at_internal_target (cs : Nat → ContentResult) :
    (1 ≤ (passLoop (fun k => .ok (cs k)) 3 0).passCount ∧
      (passLoop (fun k => .ok (cs k)) 3 0).passCount ≤ 3) ∧
    (passLoop (fun k => .ok (cs k)) 3 0).result =
      .ok (some (cs (passLoop (fun k => .ok (cs k)) 3 0).passCount)) ∧
    (∀ k, 1 ≤ k → k < (passLoop (fun k => .ok (cs k)) 3 0).passCount →
      qualityOf (cs k) < ENTERPRISE_CONSTANTS.MIN_QUALITY_SCORE) ∧
    (∀ k, 1 ≤ k → k ≤ 3 →
      ENTERPRISE_CONSTANTS.MIN_QUALITY_SCORE ≤ qualityOf (cs k) →
      (passLoop (fun k => .ok (cs k)) 3 0).passCount ≤ k) ∧
    (qualityOf (cs (passLoop (fun k => .ok (cs k)) 3 0).passCount) <
        ENTERPRISE_CONSTANTS.MIN_QUALITY_SCORE →
      (passLoop (fun k => .ok (cs k)) 3 0).passCount = 3) ∧
    (passLoop (fun k => .ok (cs k)) 3 0).sleeps =
      List.replicate ((passLoop (fun k => .ok (cs k)) 3 0).passCount - 1) 2000 ∧
    (∀ (cfg : GodModeConfig) (pom : Bool) (app : AppConfig)
        (slugOf : String → String) (pub : PublishOutcome) (rnd : ℚ)
        (now elapsed : Nat) (item : QueueItem) (rest : List QueueItem)
        (cf : Nat) (qh th : List Nat) (pt : Nat),
      maxPassesFor pom item = 3 →
      (runGenerationPhase cfg pom app slugOf (fun k => .ok (cs k)) pub rnd now
        elapsed ⟨item :: rest, cf, none, qh, th, pt⟩).genCalls =
        (passLoop (fun k => .ok (cs k)) 3 0).passCount) := by
  have main :
      (passLoop (fun k => .ok (cs k)) 3 0 = ⟨.ok (some (cs 1)), 1, []⟩ ∧
        ENTERPRISE_CONSTANTS.MIN_QUALITY_SCORE ≤ qualityOf (cs 1)) ∨
      (passLoop (fun k => .ok (cs k)) 3 0 = ⟨.ok (some (cs 2)), 2, [2000]⟩ ∧
        qualityOf (cs 1) < ENTERPRISE_CONSTANTS.MIN_QUALITY_SCORE ∧
        ENTERPRISE_CONSTANTS.MIN_QUALITY_SCORE ≤ qualityOf (cs 2)) ∨
      (passLoop (fun k => .ok (cs k)) 3 0 = ⟨.ok (some (cs 3)), 3, [2000, 2000]⟩ ∧
        qualityOf (cs 1) < ENTERPRISE_CONSTANTS.MIN_QUALITY_SCORE ∧
        qualityOf (cs 2) < ENTERPRISE_CONSTANTS.MIN_QUALITY_SCORE) := by
    by_cases h1 : ENTERPRISE_CONSTANTS.MIN_QUALITY_SCORE ≤ qualityOf (cs 1)
    · exact Or.inl ⟨by simp [passLoop, passLoopAux, h1], h1⟩
    · by_cases h2 : ENTERPRISE_CONSTANTS.MIN_QUALITY_SCORE ≤ qualityOf (cs 2)
      · exact Or.inr (Or.inl ⟨by simp [passLoop, passLoopAux, h1, h2],
          Nat.lt_of_not_le h1, h2⟩)
      · exact Or.inr (Or.inr ⟨by simp [passLoop, passLoopAux, h1, h2],
          Nat.lt_of_not_le h1, Nat.lt_of_not_le h2⟩)
  have genCalls_eq :
      ∀ (cfg : GodModeConfig) (pom : Bool) (app : AppConfig)
        (slugOf : String → String) (pub : PublishOutcome) (rnd : ℚ)
        (now elapsed : Nat) (item : QueueItem) (rest : List QueueItem)
        (cf : Nat) (qh th : List Nat) (pt : Nat),
      maxPassesFor pom item = 3 →
      (runGenerationPhase cfg pom app slugOf (fun k => .ok (cs k)) pub rnd now
        elapsed ⟨item :: rest, cf, none, qh, th, pt⟩).genCalls =
        (passLoop (fun k => .ok (cs k)) 3 0).passCount := by
    intro cfg pom app slugOf pub rnd now elapsed item rest cf qh th pt hmax
    have hres : ∃ c, (passLoop (fun k => .ok (cs k)) 3 0).result = .ok (some c) := by
      rcases main with ⟨he, -⟩ | ⟨he, -⟩ | ⟨he, -⟩ <;> rw [he] <;> exact ⟨_, rfl⟩
    obtain ⟨c, hc⟩ := hres
    by_cases hq : qualityOf c < cfg.qualityThreshold
    · rw [genPhase_success_skipped cfg pom app slugOf _ pub rnd now elapsed
        item rest cf qh th pt (by rw [hmax]; exact hc) hq, hmax]
    · rw [genPhase_success_publish cfg pom app slugOf _ pub rnd now elapsed
        item rest cf qh th pt (by rw [hmax]; exact hc) hq, hmax]
  rcases main with ⟨he, h1⟩ | ⟨he, h1, h2⟩ | ⟨he, h1, h2⟩
  · refine ⟨by simp [he], by rw [he], ?_, ?_, ?_, by rw [he]; rfl, genCalls_eq⟩
    · intro k hk1 hk2
      rw [he] at hk2
      simp at hk2
      omega
    · intro k hk1 hk3 hq
      rw [he]
      exact hk1
    · intro hq
      rw [he] at hq
      simp at hq
      exact absurd hq (by omega)
  · refine ⟨by simp [he], by rw [he], ?_, ?_, ?_, by rw [he]; rfl, genCalls_eq⟩
    · intro k hk1 hk2
      rw [he] at hk2
      simp at hk2
      interval_cases k
      exact h1
    · intro k hk1 hk3 hq
      rw [he]
      show 2 ≤ k
      have hne1 : k ≠ 1 := fun h => by rw [h] at hq; omega
      omega
    · intro hq
      rw [he] at hq
      simp at hq
      exact absurd hq (by omega)
  · refine ⟨by simp [he], by rw [he], ?_, ?_, ?_, by rw [he]; rfl, genCalls_eq⟩
    · intro k hk1 hk2
      rw [he] at hk2
      simp at hk2
      interval_cases k
      · exact h1
      · exact h2
    · intro k hk1 hk3 hq
      rw [he]
      show 3 ≤ k
      have hne1 : k ≠ 1 := fun h => by rw [h] at hq; omega
      have hne2 : k ≠ 2 := fun h => by rw [h] at hq; omega
      omega
    · intro hq
      rw [he]

/-- Witness for `multipass_stops_at_internal_target` at a constant
quality-60 generator: the loop runs all 3 passes with 2000 ms pauses. -/
theorem multipass_stops_at_internal_target_witness :
    (passLoop (fun _ => .ok (⟨"T", "B", "S", "M", some ⟨60⟩, some ⟨900⟩⟩ : ContentResult)) 3 0).passCount = 3 ∧
    (passLoop (fun _ => .ok (⟨"T", "B", "S", "M", some ⟨60⟩, some ⟨900⟩⟩ : ContentResult)) 3 0).sleeps =
      List.replicate 2 2000 :=
  ⟨(multipass_stops_at_internal_target
      (fun _ => ⟨"T", "B", "S", "M", some ⟨60⟩, some ⟨900⟩⟩)).2.2.2.2.1 (by decide),
    by
      have h := (multipass_stops_at_internal_target
        (fun _ => ⟨"T", "B", "S", "M", some ⟨60⟩, some ⟨900⟩⟩)).2.2.2.2.2.1
      simpa using h⟩

/-! ## Claim C5: the retry cap -/

/-- C5: `retryCount` never exceeds `config.retryAttempts`.  On a
Generate-phase failure: with `retryCount` strictly below the maximum the
item is requeued with `retryCount + 1` and no history entry; at the
maximum, exactly one terminal `error` history entry is recorded and the
item is dropped.  The bound `retryCount ≤ retryAttempts` is preserved for
every queued item. -/
theorem retry_cap (cfg : GodModeConfig) (pom : Bool) (app : AppConfig)
    (slugOf : String → String) (gen : Nat → Except String ContentResult)
    (pub : PublishOutcome) (rnd : ℚ) (now elapsed : Nat) (item : QueueItem)
    (rest : List QueueItem) (cf : Nat) (qh th : List Nat) (pt : Nat)
    (msg : String)
    (hp : (passLoop gen (maxPassesFor pom item) 0).result = .error msg) :
    (item.retryCount < cfg.retryAttempts →
      (runGenerationPhase cfg pom app slugOf gen pub rnd now elapsed
        ⟨item :: rest, cf, none, qh, th, pt⟩).history = [] ∧
      (runGenerationPhase cfg pom app slugOf gen pub rnd now elapsed
        ⟨item :: rest, cf, none, qh, th, pt⟩).state.queue =
        sortQueue (rest ++ [{ item with retryCount := item.retryCount + 1,
                                        lastError := some msg }])) ∧
    (cfg.retryAttempts ≤ item.retryCount →
      (runGenerationPhase cfg pom app slugOf gen pub rnd now elapsed
        ⟨item :: rest, cf, none, qh, th, pt⟩).history =
        [{ url := item.url, action := .error,
           error := some ("Max retries (" ++ toString item.retryCount
             ++ ") exceeded. Last error: " ++ msg),
           processingTimeMs := some elapsed }] ∧
      (runGenerationPhase cfg pom app slugOf gen pub rnd now elapsed
        ⟨item :: rest, cf, none, qh, th, pt⟩).state.queue = rest) ∧
    ((∀ it ∈ item :: rest, it.retryCount ≤ cfg.retryAttempts) →
      ∀ it ∈ (runGenerationPhase cfg pom app slugOf gen pub rnd now elapsed
        ⟨item :: rest, cf, none, qh, th, pt⟩).state.queue,
        it.retryCount ≤ cfg.retryAttempts) := by
  refine ⟨fun hr => ?_, fun hr => ?_, fun hinv it hit => ?_⟩
  · rw [genPhase_failure_retry cfg pom app slugOf gen pub rnd now elapsed
      item rest cf qh th pt hp hr]
    exact ⟨rfl, rfl⟩
  · rw [genPhase_failure_drop cfg pom app slugOf gen pub rnd now elapsed
      item rest cf qh th pt hp (Nat.not_lt.mpr hr)]
    exact ⟨rfl, recordFailure_queue _ _⟩
  · by_cases hr : item.retryCount < cfg.retryAttempts
    · rw [genPhase_failure_retry cfg pom app slugOf gen pub rnd now elapsed
        item rest cf qh th pt hp hr] at hit
      have hmem : it ∈ rest ++
          [{ item with retryCount := item.retryCount + 1, lastError := some msg }] :=
        ((sortQueue_perm _).mem_iff).mp hit
      rcases List.mem_append.mp hmem with h' | h'
      · exact hinv it (List.mem_cons_of_mem item h')
      · simp at h'
        subst h'
        simpa using hr
    · rw [genPhase_failure_drop cfg pom app slugOf gen pub rnd now elapsed
        item rest cf qh th pt hp hr] at hit
      rw [recordFailure_queue] at hit
      exact hinv it (List.mem_cons_of_mem item hit)

/-- Witness for `retry_cap` at a concrete input (generator throws on an
item that has exhausted its 3 retries). -/
theorem retry_cap_witness :
    (runGenerationPhase ⟨70, 3, 60, 25, 5, 24, 8, 20, false, true, "draft"⟩
      true ⟨"https://e.com", "admin", "pw"⟩ (fun _ => "a")
      (fun _ => .error "boom") (.response true 200 none) (1/2) 1000 5000
      ⟨[⟨"", "https://e.com/a", .critical, 10, 0, .manual, 3, none⟩], 0, none,
        [], [], 0⟩).history =
      [{ url := "https://e.com/a", action := .error,
         error := some "Max retries (3) exceeded. Last error: boom",
         processingTimeMs := some 5000 }] ∧
    (runGenerationPhase ⟨70, 3, 60, 25, 5, 24, 8, 20, false, true, "draft"⟩
      true ⟨"https://e.com", "admin", "pw"⟩ (fun _ => "a")
      (fun _ => .error "boom") (.response true 200 none) (1/2) 1000 5000
      ⟨[⟨"", "https://e.com/a", .critical, 10, 0, .manual, 3, none⟩], 0, none,
        [], [], 0⟩).state.queue = [] :=
  (retry_cap ⟨70, 3, 60, 25, 5, 24, 8, 20, false, true, "draft"⟩ true
    ⟨"https://e.com", "admin", "pw"⟩ (fun _ => "a") (fun _ => .error "boom")
    (.response true 200 none) (1/2) 1000 5000
    ⟨"", "https://e.com/a", .critical, 10, 0, .manual, 3, none⟩ [] 0 [] [] 0
    "boom" rfl).2.1 (by norm_num)

/-! ## Claim C4: the circuit breaker protocol -/

theorem passLoopAux_passCount_ge (gen : Nat → Except String ContentResult)
    (m : Nat) : ∀ fuel pc, pc ≤ (passLoopAux gen m fuel pc).passCount := by
  intro fuel
  induction fuel with
  | zero => intro pc; simp [passLoopAux]
  | succ fuel ih =>
    intro pc
    simp only [passLoopAux]
    cases hg : gen (pc + 1) with
    | error e => simp
    | ok c =>
      simp only
      split
      · simp
      · split
        · exact le_trans (Nat.le_succ pc) (ih (pc + 1))
        · simp

theorem passLoop_passCount_pos (gen : Nat → Except String ContentResult)
    {m : Nat} (hm : 0 < m) : 1 ≤ (passLoop gen m 0).passCount := by
  unfold passLoop
  obtain ⟨fuel, rfl⟩ : ∃ fuel, m = fuel + 1 := ⟨m - 1, by omega⟩
  simp only [Nat.sub_zero, passLoopAux]
  cases hg : gen 1 with
  | error e => simp
  | ok c =>
    simp only
    split
    · simp
    · split
      · exact passLoopAux_passCount_ge gen (fuel + 1) fuel 1
      · simp

theorem maxPassesFor_pos (pom : Bool) (item : QueueItem) :
    0 < maxPassesFor pom item := by
  unfold maxPassesFor
  split <;> norm_num [ENTERPRISE_CONSTANTS.MAX_QUALITY_IMPROVEMENT_PASSES]

/-- C4: the circuit-breaker protocol.  (1) A successful Generate-phase
outcome resets `consecutiveFailures` to 0.  (2) The failure that brings
the counter to the threshold 5 sets the cooldown expiry
`now + 600000`.  (3) While the cooldown has not elapsed, the Generate
phase pops no item and makes no generator call: the state is unchanged
and the engine just sleeps 60 s.  (4) Once the cooldown has expired, the
breaker check clears the cooldown and resets the failure counter, and
(5) generation resumes: with a non-empty queue at least one generator
call is made. -/
theorem circuit_breaker_protocol :
    (∀ (cfg : GodModeConfig) (pom : Bool) (app : AppConfig)
        (slugOf : String → String) (gen : Nat → Except String ContentResult)
        (pub : PublishOutcome) (rnd : ℚ) (now elapsed : Nat) (item : QueueItem)
        (rest : List QueueItem) (cf : Nat) (qh th : List Nat) (pt : Nat)
        (c : ContentResult),
      (passLoop gen (maxPassesFor pom item) 0).result = .ok (some c) →
      (runGenerationPhase cfg pom app slugOf gen pub rnd now elapsed
        ⟨item :: rest, cf, none, qh, th, pt⟩).state.consecutiveFailures = 0) ∧
    (∀ (st : EngineState) (now : Nat),
      st.consecutiveFailures + 1 = ENTERPRISE_CONSTANTS.CIRCUIT_BREAKER_THRESHOLD →
      (recordFailure st now).circuitBrokenUntil =
        some (now + ENTERPRISE_CONSTANTS.CIRCUIT_BREAKER_RESET_MS)) ∧
    (∀ (cfg : GodModeConfig) (pom : Bool) (app : AppConfig)
        (slugOf : String → String) (gen : Nat → Except String ContentResult)
        (pub : PublishOutcome) (rnd : ℚ) (now elapsed : Nat) (st : EngineState)
        (t : Nat),
      st.circuitBrokenUntil = some t → now < t →
      runGenerationPhase cfg pom app slugOf gen pub rnd now elapsed st =
        { state := st, history := [], genCalls := 0, sleeps := [60000] }) ∧
    (∀ (st : EngineState) (now t : Nat),
      st.circuitBrokenUntil = some t → t ≤ now →
      isCircuitBroken st now =
        (false, { st with circuitBrokenUntil := none, consecutiveFailures := 0 })) ∧
    (∀ (cfg : GodModeConfig) (pom : Bool) (app : AppConfig)
        (slugOf : String → String) (gen : Nat → Except String ContentResult)
        (pub : PublishOutcome) (rnd : ℚ) (now elapsed : Nat) (item : QueueItem)
        (rest : List QueueItem) (cf : Nat) (qh th : List Nat) (pt t : Nat),
      t ≤ now →
      1 ≤ (runGenerationPhase cfg pom app slugOf gen pub rnd now elapsed
        ⟨item :: rest, cf, some t, qh, th, pt⟩).genCalls) := by
  refine ⟨?_, ?_, ?_, ?_, ?_⟩
  · intro cfg pom app slugOf gen pub rnd now elapsed item rest cf qh th pt c hp
    by_cases hq : qualityOf c < cfg.qualityThreshold
    · rw [genPhase_success_skipped cfg pom app slugOf gen pub rnd now elapsed
        item rest cf qh th pt hp hq]
      rfl
    · rw [genPhase_success_publish cfg pom app slugOf gen pub rnd now elapsed
        item rest cf qh th pt hp hq]
      rfl
  · intro st now h
    simp only [recordFailure]
    rw [if_pos (by omega)]
  · intro cfg pom app slugOf gen pub rnd now elapsed st t hb hlt
    exact genPhase_broken cfg pom app slugOf gen pub rnd now elapsed hb hlt
  · intro st now t hb hle
    exact isCircuitBroken_expired now hb hle
  · intro cfg pom app slugOf gen pub rnd now elapsed item rest cf qh th pt t hle
    unfold runGenerationPhase
    rw [isCircuitBroken_expired now rfl hle]
    dsimp only
    rw [if_neg Bool.false_ne_true]
    split
    · split
      · exact passLoop_passCount_pos gen (maxPassesFor_pos pom item)
      · exact passLoop_passCount_pos gen (maxPassesFor_pos pom item)
    · split
      · exact passLoop_passCount_pos gen (maxPassesFor_pos pom item)
      · exact passLoop_passCount_pos gen (maxPassesFor_pos pom item)

/-- Witness for `circuit_breaker_protocol` at concrete inputs. -/
theorem circuit_breaker_protocol_witness :
    (runGenerationPhase ⟨70, 3, 60, 25, 5, 24, 8, 20, false, false, "draft"⟩
      true ⟨"https://e.com", "admin", "pw"⟩ (fun _ => "a")
      (fun _ => .ok ⟨"T", "B", "S", "M", some ⟨95⟩, some ⟨1200⟩⟩)
      (.response true 200 none) (1/2) 1000 5000
      ⟨[⟨"", "https://e.com/a", .critical, 10, 0, .manual, 0, none⟩], 4, none,
        [], [], 0⟩).state.consecutiveFailures = 0 ∧
    (recordFailure ⟨[], 4, none, [], [], 0⟩ 1000).circuitBrokenUntil =
      some (1000 + 600000) ∧
    runGenerationPhase ⟨70, 3, 60, 25, 5, 24, 8, 20, false, false, "draft"⟩
      true ⟨"https://e.com", "admin", "pw"⟩ (fun _ => "a")
      (fun _ => .ok ⟨"T", "B", "S", "M", some ⟨95⟩, some ⟨1200⟩⟩)
      (.response true 200 none) (1/2) 1000 5000
      ⟨[⟨"", "https://e.com/a", .critical, 10, 0, .manual, 0, none⟩], 5,
        some 601000, [], [], 0⟩ =
      { state := ⟨[⟨"", "https://e.com/a", .critical, 10, 0, .manual, 0, none⟩],
          5, some 601000, [], [], 0⟩,
        history := [], genCalls := 0, sleeps := [60000] } ∧
    isCircuitBroken ⟨[], 5, some 900, [], [], 0⟩ 1000 =
      (false, ⟨[], 0, none, [], [], 0⟩) ∧
    1 ≤ (runGenerationPhase ⟨70, 3, 60, 25, 5, 24, 8, 20, false, false, "draft"⟩
      true ⟨"https://e.com", "admin", "pw"⟩ (fun _ => "a")
      (fun _ => .ok ⟨"T", "B", "S", "M", some ⟨95⟩, some ⟨1200⟩⟩)
      (.response true 200 none) (1/2) 1000 5000
      ⟨[⟨"", "https://e.com/a", .critical, 10, 0, .manual, 0, none⟩], 5,
        some 900, [], [], 0⟩).genCalls :=
  ⟨circuit_breaker_protocol.1 _ true _ _ _ _ (1/2) 1000 5000 _ [] 4 [] [] 0
      ⟨"T", "B", "S", "M", some ⟨95⟩, some ⟨1200⟩⟩ rfl,
    circuit_breaker_protocol.2.1 ⟨[], 4, none, [], [], 0⟩ 1000 rfl,
    circuit_breaker_protocol.2.2.1 _ true _ _ _ _ (1/2) 1000 5000 _ 601000 rfl
      (by norm_num),
    circuit_breaker_protocol.2.2.2.1 ⟨[], 5, some 900, [], [], 0⟩ 1000 900 rfl
      (by norm_num),
    circuit_breaker_protocol.2.2.2.2 _ true _ _ _ _ (1/2) 1000 5000 _ [] 5 [] []
      0 900 (by norm_num)⟩

/-! ## Claim C7: publish failure after successful generation -/

/-- C7 (divergence witness): when auto-publish is on, generation succeeds
at or above the configured threshold, and the publisher responds
non-ok, exactly one history entry is recorded, with action `error` and
the message `"Generated but publish failed: WordPress API error: _"` —
but that entry carries **no** generated-content snapshot
(`generatedContent = none`), and the auto-publish path stores the
prepared snapshot nowhere else, so the content is not retrievable from
this outcome. -/
theorem publish_failure_no_snapshot (cfg : GodModeConfig) (pom : Bool)
    (app : AppConfig) (slugOf : String → String)
    (gen : Nat → Except String ContentResult) (rnd : ℚ) (now elapsed : Nat)
    (item : QueueItem) (rest : List QueueItem) (cf : Nat) (qh th : List Nat)
    (pt : Nat) (c : ContentResult) (status : Nat) (link : Option String)
    (hp : (passLoop gen (maxPassesFor pom item) 0).result = .ok (some c))
    (hq : ¬ qualityOf c < cfg.qualityThreshold)
    (hauto : cfg.autoPublish = true)
    (hcreds : ¬ (app.wpUrl = "" ∨ app.wpUsername = "" ∨ app.wpAppPassword = "")) :
    (runGenerationPhase cfg pom app slugOf gen (.response false status link)
        rnd now elapsed ⟨item :: rest, cf, none, qh, th, pt⟩).history =
      [{ url := item.url, action := .error,
         qualityScore := some (qualityOf c),
         error := some ("Generated but publish failed: WordPress API error: "
           ++ toString status),
         processingTimeMs := some elapsed }] ∧
    (∀ e ∈ (runGenerationPhase cfg pom app slugOf gen
        (.response false status link) rnd now elapsed
        ⟨item :: rest, cf, none, qh, th, pt⟩).history,
      e.generatedContent = none) := by
  have hhist : (runGenerationPhase cfg pom app slugOf gen
      (.response false status link) rnd now elapsed
      ⟨item :: rest, cf, none, qh, th, pt⟩).history =
      [{ url := item.url, action := .error,
         qualityScore := some (qualityOf c),
         error := some ("Generated but publish failed: WordPress API error: "
           ++ toString status),
         processingTimeMs := some elapsed }] := by
    rw [genPhase_success_publish cfg pom app slugOf gen
      (.response false status link) rnd now elapsed item rest cf qh th pt hp hq]
    simp only [hauto, if_true]
    unfold runPublishPhase
    rw [if_neg hcreds]
    rfl
  refine ⟨hhist, fun e he => ?_⟩
  rw [hhist] at he
  simp at he
  rw [he]

/-- Witness for `publish_failure_no_snapshot` at a concrete input. -/
theorem publish_failure_no_snapshot_witness :
    (runGenerationPhase ⟨70, 3, 60, 25, 5, 24, 8, 20, false, true, "draft"⟩
        true ⟨"https://e.com", "admin", "pw"⟩ (fun _ => "a")
        (fun _ => .ok ⟨"T", "B", "S", "M", some ⟨95⟩, some ⟨1200⟩⟩)
        (.response false 500 none) (1/2) 1000 5000
        ⟨[⟨"", "https://e.com/a", .critical, 10, 0, .manual, 0, none⟩], 0, none,
          [], [], 0⟩).history =
      [{ url := "https://e.com/a", action := .error, qualityScore := some 95,
         error := some "Generated but publish failed: WordPress API error: 500",
         processingTimeMs := some 5000 }] ∧
    (∀ e ∈ (runGenerationPhase ⟨70, 3, 60, 25, 5, 24, 8, 20, false, true, "draft"⟩
        true ⟨"https://e.com", "admin", "pw"⟩ (fun _ => "a")
        (fun _ => .ok ⟨"T", "B", "S", "M", some ⟨95⟩, some ⟨1200⟩⟩)
        (.response false 500 none) (1/2) 1000 5000
        ⟨[⟨"", "https://e.com/a", .critical, 10, 0, .manual, 0, none⟩], 0, none,
          [], [], 0⟩).history,
      e.generatedContent = none) :=
  publish_failure_no_snapshot ⟨70, 3, 60, 25, 5, 24, 8, 20, false, true, "draft"⟩
    true ⟨"https://e.com", "admin", "pw"⟩ (fun _ => "a")
    (fun _ => .ok ⟨"T", "B", "S", "M", some ⟨95⟩, some ⟨1200⟩⟩) (1/2) 1000 5000
    ⟨"", "https://e.com/a", .critical, 10, 0, .manual, 0, none⟩ [] 0 [] [] 0
    ⟨"T", "B", "S", "M", some ⟨95⟩, some ⟨1200⟩⟩ 500 none rfl (by norm_num [qualityOf])
    rfl (by simp)

end GodMode
